import Mathlib

/-!
Verification development for the BostonModel tiling / scene-assembly pipeline
(src/classes/BostonModel.py).  The Python class is shallowly embedded: paths
are lists of components, Python dicts are insertion-ordered association lists,
every method is a pure Lean function returning the run's effect trace, log
messages and outcome, and the external collaborators (open3d mesh I/O,
geopandas reprojection, the wall clock, the filesystem) are explicit function
parameters.  Quantities (coordinates, reflectances, sizes) are rationals.
-/

/-- Boolean test that the first list is a prefix of the second
(character-by-character, used for Python substring membership). -/
def startsWithL : List Char → List Char → Bool
  | [], _ => true
  | _ :: _, [] => false
  | a :: as, b :: bs => a == b && startsWithL as bs

/-- Boolean substring membership on char lists, Python's `needle in hay`. -/
def containsSubL (needle : List Char) : List Char → Bool
  | [] => startsWithL needle []
  | h :: t => startsWithL needle (h :: t) || containsSubL needle t

/-- Python `needle in hay` on strings. -/
def containsSubStr (needle hay : String) : Bool :=
  containsSubL needle.data hay.data

/-- Python pathlib split of a file name into (stem, suffix): the suffix starts
at the last dot, provided that dot is neither the first nor the last character
of the name; otherwise the suffix is empty and the stem is the whole name. -/
def splitExt (name : String) : String × String :=
  let rev := name.data.reverse
  let after := rev.takeWhile (fun ch => ch != '.')
  let rest := rev.dropWhile (fun ch => ch != '.')
  match rest with
  | [] => (name, "")
  | _ :: pre =>
    if after = [] ∨ pre = [] then (name, "")
    else (String.mk pre.reverse, String.mk ('.' :: after.reverse))

/-- A filesystem path, modelled as its list of components (all paths the class
builds are produced by joinpath with single-component names; resolve() is the
identity in this model, which tracks already-absolute paths). -/
structure PyPath where
  parts : List String
deriving DecidableEq, Repr

/-- pathlib joinpath with a single-component name. -/
def PyPath.join (p : PyPath) (s : String) : PyPath :=
  ⟨p.parts ++ [s]⟩

/-- pathlib name: the final component (empty for the empty path). -/
def PyPath.nameOf (p : PyPath) : String :=
  p.parts.getLast?.getD ""

/-- pathlib with_name: replace the final component. -/
def PyPath.with_name (p : PyPath) (s : String) : PyPath :=
  ⟨p.parts.dropLast ++ [s]⟩

/-- pathlib with_suffix: replace the final component's suffix (appending when
the name has no suffix). -/
def PyPath.with_suffix (p : PyPath) (suf : String) : PyPath :=
  p.with_name ((splitExt p.nameOf).1 ++ suf)

instance : ToString PyPath := ⟨fun p => toString p.parts⟩

/-- Lookup in a Python dict modelled as an insertion-ordered association list. -/
def dictGet {α : Type} : List (String × α) → String → Option α
  | [], _ => none
  | (k0, v) :: rest, k => if k = k0 then some v else dictGet rest k

/-- Python dict assignment: replace in place if the key exists, else append. -/
def dictSet {α : Type} : List (String × α) → String → α → List (String × α)
  | [], k, v => [(k, v)]
  | (k0, v0) :: rest, k, v =>
    if k = k0 then (k0, v) :: rest else (k0, v0) :: dictSet rest k v

/-- One entry of a directory listing, as seen by Path.iterdir: its final
component name and whether it is a regular file. -/
structure DirEntry where
  name : String
  isFile : Bool
deriving DecidableEq, Repr

/-- A value stored in a tile-descriptor dict: the source stores only paths;
the `models` key the simplifier expects would hold a list of model names. -/
inductive DescValue where
  | path (p : PyPath)
  | models (l : List String)
deriving DecidableEq, Repr

/-- A tile descriptor, a Python dict from string keys to descriptor values. -/
def TileDescriptor : Type := List (String × DescValue)

instance : DecidableEq TileDescriptor := by
  unfold TileDescriptor
  infer_instance

/-- The filter of _enumerate_scenes (BostonModel.py line 42): regular file,
suffix ".geojson", and "tileinfo" not a substring of the stem. -/
def qualifies (e : DirEntry) : Bool :=
  e.isFile && ((splitExt e.name).2 == ".geojson")
    && !(containsSubStr "tileinfo" (splitExt e.name).1)

/-- The descriptor dict built for one qualifying scene file
(BostonModel.py lines 45-56); resolve() is the identity in this model. -/
def mkDescriptor (scene_file_path : PyPath) : TileDescriptor :=
  let scene_name := (splitExt scene_file_path.nameOf).1
  [("tileinfo_path",
      DescValue.path (scene_file_path.with_name (scene_name ++ "_tileinfo.geojson"))),
   ("geo_scene_path", DescValue.path scene_file_path),
   ("mi_scene_path", DescValue.path (scene_file_path.with_suffix ".xml"))]

/-- One iteration of the _enumerate_scenes loop: a qualifying entry is
inserted into the dict under its stem, any other entry is skipped. -/
def enumStep (dir : PyPath) (acc : List (String × TileDescriptor))
    (e : DirEntry) : List (String × TileDescriptor) :=
  if qualifies e then
    dictSet acc (splitExt e.name).1 (mkDescriptor (dir.join e.name))
  else acc

/-- _enumerate_scenes (BostonModel.py lines 39-62): fold the directory listing
into a dict keyed by scene stem. -/
def enumerate_scenes (dir : PyPath) (listing : List DirEntry) :
    List (String × TileDescriptor) :=
  listing.foldl (enumStep dir) []

/-- The Python exceptions the embedded methods can raise. -/
inductive PyError where
  | keyError (msg : String)
  | fileExistsError (msg : String)
  | attributeError (msg : String)
  | typeError (msg : String)
deriving DecidableEq, Repr

/-- A triangle mesh, abstracted to the counts the class observes. -/
structure Mesh where
  n_vertices : Nat
  n_triangles : Nat
deriving DecidableEq, Repr

/-- A polygonal model feature of the geodataframe, at the interface boundary:
Model_ID and StructType columns, the centroid the reprojected frame computes,
and the bounds of its geometry (shapely computations are external). -/
structure Feature where
  model_id : String
  struct_type : String
  centroid : ℚ × ℚ
  bounds : ℚ × ℚ × ℚ × ℚ
deriving DecidableEq, Repr

/-- A 4x4 affine transform, the embedding of mi.ScalarTransform4f. -/
structure Transform4 where
  m00 : ℚ
  m01 : ℚ
  m02 : ℚ
  m03 : ℚ
  m10 : ℚ
  m11 : ℚ
  m12 : ℚ
  m13 : ℚ
  m20 : ℚ
  m21 : ℚ
  m22 : ℚ
  m23 : ℚ
  m30 : ℚ
  m31 : ℚ
  m32 : ℚ
  m33 : ℚ
deriving DecidableEq, Repr

/-- Matrix product of two transforms (the mitsuba @ operator). -/
def tmul (a b : Transform4) : Transform4 where
  m00 := a.m00 * b.m00 + a.m01 * b.m10 + a.m02 * b.m20 + a.m03 * b.m30
  m01 := a.m00 * b.m01 + a.m01 * b.m11 + a.m02 * b.m21 + a.m03 * b.m31
  m02 := a.m00 * b.m02 + a.m01 * b.m12 + a.m02 * b.m22 + a.m03 * b.m32
  m03 := a.m00 * b.m03 + a.m01 * b.m13 + a.m02 * b.m23 + a.m03 * b.m33
  m10 := a.m10 * b.m00 + a.m11 * b.m10 + a.m12 * b.m20 + a.m13 * b.m30
  m11 := a.m10 * b.m01 + a.m11 * b.m11 + a.m12 * b.m21 + a.m13 * b.m31
  m12 := a.m10 * b.m02 + a.m11 * b.m12 + a.m12 * b.m22 + a.m13 * b.m32
  m13 := a.m10 * b.m03 + a.m11 * b.m13 + a.m12 * b.m23 + a.m13 * b.m33
  m20 := a.m20 * b.m00 + a.m21 * b.m10 + a.m22 * b.m20 + a.m23 * b.m30
  m21 := a.m20 * b.m01 + a.m21 * b.m11 + a.m22 * b.m21 + a.m23 * b.m31
  m22 := a.m20 * b.m02 + a.m21 * b.m12 + a.m22 * b.m22 + a.m23 * b.m32
  m23 := a.m20 * b.m03 + a.m21 * b.m13 + a.m22 * b.m23 + a.m23 * b.m33
  m30 := a.m30 * b.m00 + a.m31 * b.m10 + a.m32 * b.m20 + a.m33 * b.m30
  m31 := a.m30 * b.m01 + a.m31 * b.m11 + a.m32 * b.m21 + a.m33 * b.m31
  m32 := a.m30 * b.m02 + a.m31 * b.m12 + a.m32 * b.m22 + a.m33 * b.m32
  m33 := a.m30 * b.m03 + a.m31 * b.m13 + a.m32 * b.m23 + a.m33 * b.m33

/-- mi.ScalarTransform4f.translate of the vector (x, y, z). -/
def Transform4.translate (x y z : ℚ) : Transform4 :=
  ⟨1, 0, 0, x, 0, 1, 0, y, 0, 0, 1, z, 0, 0, 0, 1⟩

/-- One entry of the assembled scene dict. -/
inductive SceneEntry where
  | scene
  | integrator (ty : String)
  | light (ty : String)
  | material (reflectance : ℚ × ℚ × ℚ)
  | ground (mesh : PyPath) (material : String) (x y z scale : ℚ)
  | model (mesh : PyPath) (material : String) (to_world : Transform4)
deriving DecidableEq, Repr

/-- The assembled scene description: a Python dict of scene entries. -/
def SceneDict : Type := List (String × SceneEntry)

instance : DecidableEq SceneDict := by
  unfold SceneDict
  infer_instance

/-- One filesystem effect of a method run, in program order. -/
inductive FsEffect where
  | mkdir (p : PyPath)
  | readMesh (p : PyPath)
  | writeMesh (p : PyPath)
  | readText (p : PyPath)
  | writeText (p : PyPath) (content : String)
  | writeSceneXml (p : PyPath) (d : SceneDict)
  | writeGeojson (p : PyPath) (g : List Feature)
deriving DecidableEq

/-- One log line printed by a method run, carrying the printed data. -/
inductive LogMsg where
  | scenesImported (n : Nat)
  | converting (nrows : Nat)
  | doneIn (t : ℚ)
  | sceneSize (s : ℚ)
  | eta (t0 t1 : ℚ) (idx n : Nat)
  | inputCounts (n_vert n_tri : Nat)
  | outputCounts (n_vert n_tri : Nat)
  | savedIn (p : PyPath)
deriving DecidableEq

/-- The observable result of one method run: the ordered filesystem effects,
the log lines, and the outcome (normal return or raised exception). -/
structure RunResult (α : Type) where
  effects : List FsEffect
  logs : List LogMsg
  outcome : Except PyError α

/-- The external collaborators of the class, abstracted as functions: the
filesystem, open3d mesh I/O and processing, the geopandas local-CRS
reprojection, and the wall clock read by time.time(). -/
structure Collaborators where
  dirExists : PyPath → Bool
  readText : PyPath → String
  readMesh : PyPath → Mesh
  filter_smooth_simple : Nat → Mesh → Mesh
  simplify_vertex_clustering : ℚ → Mesh → Mesh
  gdf2localcrs : List Feature → List Feature
  clock : Nat → ℚ

/-- The Union[Path, str] argument type of the constructor. -/
inductive PathOrStr where
  | path (p : PyPath)
  | str (s : String)

/-- The state of a constructed BostonModel instance.  The two CRS-origin
constants of the source (imported from utils.constants, outside src/) are
not referenced by any claim and are omitted.  out_dataset_dir is the
attribute read on line 239 of the source; it is an Option because no method
of the class ever assigns it, so reading it raises AttributeError. -/
structure BostonModelState where
  dataset_dir : PyPath
  mesh_dir : PyPath
  tiles_dict : List (String × TileDescriptor)
  tile_names : List String
  n_tiles : Nat
  flat : Bool
  out_dataset_dir : Option PyPath
deriving DecidableEq

/-- BostonModel.__init__ (lines 15-35): store dataset_dir (wrapping a str
argument into a Path), then call joinpath on the ORIGINAL argument (line 25)
— for a str argument this raises AttributeError since str has no joinpath —
then enumerate the scenes of the directory listing. -/
def BostonModel_init (dataset_dir : PathOrStr) (listing : List DirEntry) :
    Except PyError BostonModelState :=
  match dataset_dir with
  | .str _ => .error (.attributeError "joinpath")
  | .path p =>
    let tiles := enumerate_scenes p listing
    .ok { dataset_dir := p
          mesh_dir := p.join "meshes"
          tiles_dict := tiles
          tile_names := tiles.map Prod.fst
          n_tiles := tiles.length
          flat := true
          out_dataset_dir := none }

/-- The KeyError message of line 86: it names the dataset directory, the list
of valid tile names and the offending name. -/
def unknownSceneMsg (dataset_dir : PyPath) (tile_names : List String)
    (scene_in_name : String) : String :=
  "scene_name must correspond to one of the scenes name in "
    ++ toString dataset_dir ++ ": " ++ toString tile_names
    ++ "\nInstead: " ++ scene_in_name

/-- The FileExistsError message of lines 91-93. -/
def overwriteMsg : String :=
  "Specify a different folder for the simplified dataset.\nOverwriting the original dataset is not supported."

/-- generate_simplified_dataset (BostonModel.py lines 76-134).  Order of the
source: tile-name check (lines 84-87), descriptor lookup (line 88), output
directory check (lines 90-93), output mesh dir creation (lines 95-97), the
per-model simplification loop over scene_in_dict["models"] (lines 99-119) —
a key the enumerated descriptors never contain — and finally the textual
copy of the scene .xml and .geojson files (lines 121-128). -/
def generate_simplified_dataset (m : BostonModelState) (c : Collaborators)
    (scene_in_name : String) (out_dir : PyPath)
    (precision : ℚ) (smooth : Bool) (n_smooth_iterations : Nat) :
    RunResult Unit :=
  if scene_in_name ∈ m.tile_names then
    match dictGet m.tiles_dict scene_in_name with
    | none => ⟨[], [], .error (.keyError scene_in_name)⟩
    | some scene_in_dict =>
      if m.dataset_dir = out_dir then
        ⟨[], [], .error (.fileExistsError overwriteMsg)⟩
      else
        let out_mesh_dir := out_dir.join "meshes"
        let mk_effs :=
          if c.dirExists out_mesh_dir then [] else [FsEffect.mkdir out_mesh_dir]
        match dictGet scene_in_dict "models" with
        | none => ⟨mk_effs, [], .error (.keyError "models")⟩
        | some (.path _) => ⟨mk_effs, [], .error (.typeError "Path is not iterable")⟩
        | some (.models model_list) =>
          let step := fun (st : List FsEffect × Nat × Nat × Nat × Nat)
              (model_name : String) =>
            let model_in_path := m.mesh_dir.join (model_name ++ ".ply")
            let model_in := c.readMesh model_in_path
            let model_mid :=
              if smooth then c.filter_smooth_simple n_smooth_iterations model_in
              else model_in
            let model_out := c.simplify_vertex_clustering precision model_mid
            let model_out_path := out_mesh_dir.join (model_name ++ ".ply")
            (st.1 ++ [FsEffect.readMesh model_in_path, FsEffect.writeMesh model_out_path],
             st.2.1 + model_in.n_triangles, st.2.2.1 + model_in.n_vertices,
             st.2.2.2.1 + model_out.n_triangles, st.2.2.2.2 + model_out.n_vertices)
          let folded := model_list.foldl step (mk_effs, 0, 0, 0, 0)
          let scene_in_path := m.dataset_dir.join (scene_in_name ++ ".xml")
          let out_xml := out_dir.join scene_in_path.nameOf
          let gj_in := scene_in_path.with_suffix ".geojson"
          let out_gj := out_dir.join gj_in.nameOf
          ⟨folded.1 ++
             [FsEffect.readText scene_in_path,
              FsEffect.writeText out_xml (c.readText scene_in_path),
              FsEffect.readText gj_in,
              FsEffect.writeText out_gj (c.readText gj_in)],
           [LogMsg.inputCounts folded.2.2.1 folded.2.1,
            LogMsg.outputCounts folded.2.2.2.2 folded.2.2.2.1,
            LogMsg.savedIn out_gj],
           .ok ()⟩
  else
    ⟨[], [],
     .error (.keyError (unknownSceneMsg m.dataset_dir m.tile_names scene_in_name))⟩

/-- The fixed initial scene dict literal of lines 140-176: scene marker, path
integrator, constant light, and the three named two-sided diffuse materials
with their exact reflectance triples. -/
def initSceneDict : SceneDict :=
  [("type", SceneEntry.scene),
   ("integrator", SceneEntry.integrator "path"),
   ("light", SceneEntry.light "constant"),
   ("mat-itu_brick",
      SceneEntry.material (401968 / 1000000, 111874 / 1000000, 86764 / 1000000)),
   ("mat-itu_concrete",
      SceneEntry.material (539479 / 1000000, 539479 / 1000000, 539480 / 1000000)),
   ("mat-itu_medium_dry_ground",
      SceneEntry.material (65 / 255, 60 / 255, 60 / 255))]

/-- Modelled from the spec: create_ground (src/utils/obj_utils.py, which is
not under src/) builds the ground-plane ("frame") dict by scaling the unit
rectangle mesh read from base_rect_path by the given scale factor, writing
the scaled mesh to out_mesh_path, assigning it the given material and placing
it at position (x, y, z); the trailing dataset_dir argument of the source
call is not used by the returned dict. -/
def create_ground (material : String) (x y z scale : ℚ)
    (base_rect_path out_mesh_path : PyPath) (dataset_dir : PyPath) :
    SceneEntry × List FsEffect :=
  (SceneEntry.ground out_mesh_path material x y z scale,
   [FsEffect.readMesh base_rect_path, FsEffect.writeMesh out_mesh_path])

/-- Modelled from the spec: get_mi_dict (src/utils/obj_utils.py, which is not
under src/) loads the mesh at mesh_path, builds its placement dict as
mesh-reference plus material plus an affine to_world transform translating
the mesh to (x, y, z), and returns the dict together with the mesh's
triangle count; the out_scene_path argument of the source call does not enter
the returned dict. -/
def get_mi_dict (readMesh : PyPath → Mesh) (mesh_path : PyPath) (x y z : ℚ)
    (out_scene_path : PyPath) (material : String) :
    (SceneEntry × Nat) × List FsEffect :=
  ((SceneEntry.model mesh_path material (Transform4.translate x y z),
    (readMesh mesh_path).n_triangles),
   [FsEffect.readMesh mesh_path])

/-- Lines 228-230: compose the model dict's to_world transform with the
translation by the negative of the tile center. -/
def addTileOffset (scene_center : ℚ × ℚ) : SceneEntry → SceneEntry
  | .model p mat tw =>
    .model p mat (tmul tw (Transform4.translate (-scene_center.1) (-scene_center.2) 0))
  | e => e

/-- total_bounds of a geodataframe: componentwise (minx, miny, maxx, maxy)
over the feature bounds.  geopandas returns NaNs for an empty frame; the
empty case is not modelled and every theorem about bounds assumes a
nonempty collection. -/
def total_bounds : List Feature → ℚ × ℚ × ℚ × ℚ
  | [] => (0, 0, 0, 0)
  | f :: fs =>
    fs.foldl
      (fun b g =>
        (min b.1 g.bounds.1, min b.2.1 g.bounds.2.1,
         max b.2.2.1 g.bounds.2.2.1, max b.2.2.2 g.bounds.2.2.2))
      f.bounds

/-- The body of the per-model loop of lines 209-235, one feature at a time:
pick the mesh path and material, build the placement dict via get_mi_dict,
compose the tile-center offset, and insert into the scene dict under the
feature's Model_ID.  State: (scene dict, n_tri list, effects). -/
def sceneLoopStep (readMesh : PyPath → Mesh) (meshes_path out_scene_path : PyPath)
    (scene_center : ℚ × ℚ) (st : SceneDict × List Nat × List FsEffect)
    (f : Feature) : SceneDict × List Nat × List FsEffect :=
  let model_mesh_path := (meshes_path.join f.model_id).with_suffix ".ply"
  let model_material :=
    if f.struct_type = "Wall" then "mat-itu_brick" else "mat-itu_concrete"
  let r := get_mi_dict readMesh model_mesh_path f.centroid.1 f.centroid.2 0
    out_scene_path model_material
  (dictSet st.1 f.model_id (addTileOffset scene_center r.1.1),
   st.2.1 ++ [r.1.2], st.2.2 ++ r.2)

/-- Lines 182-237 of generate_scene_from_model_gdf, applied to the already
reprojected frame: scene size from the bounds, ground entry, then the
per-model loop.  Returns (scene dict, n_tri list, effects). -/
def assembleScene (readMesh : PyPath → Mesh) (m : BostonModelState)
    (gdf_local : List Feature) (scene_center : ℚ × ℚ) (scene_name : String) :
    SceneDict × List Nat × List FsEffect :=
  let b := total_bounds gdf_local
  let scene_size := b.2.2.1 - b.1
  let frame_name := scene_name ++ "_Frame"
  let base_rect_path := m.mesh_dir.join "rectangle.ply"
  let g := create_ground "mat-itu_medium_dry_ground" 0 0 0 (scene_size / 2 + 100)
    base_rect_path (m.mesh_dir.join (frame_name ++ ".ply")) m.dataset_dir
  let d0 := dictSet initSceneDict "ground" g.1
  gdf_local.foldl (sceneLoopStep readMesh m.mesh_dir m.dataset_dir scene_center)
    (d0, [], g.2)

/-- The per-iteration print_eta log lines (line 235); print_eta is external
(src/utils/utils.py) and is modelled as a log record of its timing inputs. -/
def sceneEtaLogs (clock : Nat → ℚ) (n_models_tile : Nat) : List LogMsg :=
  (List.range n_models_tile).map
    (fun i => LogMsg.eta (clock (2 * i + 2)) (clock (2 * i + 3)) i n_models_tile)

/-- The observable record of one generate_scene_from_model_gdf run: the scene
dict as assembled in memory by line 237, the model and triangle totals, the
effects, logs and the outcome. -/
structure SceneRun where
  scene_dict : SceneDict
  n_models_tile : Nat
  tile_n_tri : Nat
  effects : List FsEffect
  logs : List LogMsg
  outcome : Except PyError Unit

/-- generate_scene_from_model_gdf (BostonModel.py lines 136-257): reproject
the frame to the local CRS, assemble the scene dict (fixed entries, ground,
one placement per feature), total the triangle counts, then derive the output
path from self.out_dataset_dir (line 239).  That attribute is never assigned
by any method of the class, so for every state the constructor can produce the
access raises AttributeError before the scene file is written.  In the
hypothetical branch where the attribute were set, the scene .xml and .geojson
writes of lines 240-243 happen and the tile-info construction of line 248
(shp.Box(**model_gdf.total_bounds)) raises TypeError. -/
def generate_scene_from_model_gdf (m : BostonModelState) (c : Collaborators)
    (model_gdf : List Feature) (scene_center : ℚ × ℚ) (scene_name : String) :
    SceneRun :=
  let gdf_local := c.gdf2localcrs model_gdf
  let b := total_bounds gdf_local
  let scene_size := b.2.2.1 - b.1
  let asm := assembleScene c.readMesh m gdf_local scene_center scene_name
  let n_models_tile := gdf_local.length
  let tile_n_tri := asm.2.1.sum
  let logs :=
    [LogMsg.converting model_gdf.length, LogMsg.doneIn (c.clock 1 - c.clock 0),
     LogMsg.sceneSize scene_size] ++ sceneEtaLogs c.clock n_models_tile
  match m.out_dataset_dir with
  | none =>
    ⟨asm.1, n_models_tile, tile_n_tri, asm.2.2, logs,
     .error (.attributeError "out_dataset_dir")⟩
  | some od =>
    let output_tile_scene_path := od.join (scene_name ++ ".xml")
    ⟨asm.1, n_models_tile, tile_n_tri,
     asm.2.2 ++
       [FsEffect.writeSceneXml output_tile_scene_path asm.1,
        FsEffect.writeGeojson (output_tile_scene_path.with_suffix ".geojson") gdf_local],
     logs, .error (.typeError "Box")⟩

/-- Looking a key up right after setting it yields the set value. -/
theorem dictGet_dictSet_self {α : Type} (d : List (String × α)) (k : String)
    (v : α) : dictGet (dictSet d k v) k = some v := by
  induction d with
  | nil => simp [dictSet, dictGet]
  | cons h t ih =>
    obtain ⟨k0, v0⟩ := h
    by_cases hk : k = k0
    · subst hk
      simp [dictSet, dictGet]
    · simp [dictSet, dictGet, hk, ih]

/-- Setting one key leaves lookups of any other key unchanged. -/
theorem dictGet_dictSet_ne {α : Type} (d : List (String × α)) (k k0 : String)
    (v : α) (h : k ≠ k0) : dictGet (dictSet d k0 v) k = dictGet d k := by
  induction d with
  | nil => simp [dictSet, dictGet, h]
  | cons hd t ih =>
    obtain ⟨k1, v1⟩ := hd
    by_cases hk : k0 = k1
    · subst hk
      simp [dictSet, dictGet, h]
    · simp only [dictSet, if_neg hk]
      by_cases hk2 : k = k1
      · subst hk2
        simp [dictGet]
      · simp [dictGet, hk2, ih]

/-- Setting a key absent from the dict appends the binding at the end. -/
theorem dictSet_fresh {α : Type} (d : List (String × α)) (k : String) (v : α)
    (h : dictGet d k = none) : dictSet d k v = d ++ [(k, v)] := by
  induction d with
  | nil => simp [dictSet]
  | cons hd t ih =>
    obtain ⟨k0, v0⟩ := hd
    by_cases hk : k = k0
    · subst hk
      simp [dictGet] at h
    · simp only [dictGet, if_neg hk] at h
      simp [dictSet, hk, ih h]

/-- A key that misses the dict and differs from an appended binding misses
the extended dict as well. -/
theorem dictGet_append_single_none {α : Type} (d : List (String × α))
    (k k0 : String) (v0 : α) (h : dictGet d k = none) (hne : k ≠ k0) :
    dictGet (d ++ [(k0, v0)]) k = none := by
  induction d with
  | nil => simp [dictGet, hne]
  | cons hd t ih =>
    obtain ⟨k1, v1⟩ := hd
    by_cases hk : k = k1
    · subst hk
      simp [dictGet] at h
    · simp only [dictGet, if_neg hk] at h
      simp [dictGet, hk, ih h]

/-- A successful lookup after a set is either the set binding or an old one. -/
theorem dictGet_dictSet_cases {α : Type} (d : List (String × α))
    (k k0 : String) (v v0 : α) (h : dictGet (dictSet d k0 v0) k = some v) :
    (k = k0 ∧ v = v0) ∨ dictGet d k = some v := by
  induction d with
  | nil =>
    by_cases hk : k = k0
    · subst hk
      simp [dictSet, dictGet] at h
      exact Or.inl ⟨rfl, h.symm⟩
    · simp [dictSet, dictGet, hk] at h
  | cons hd t ih =>
    obtain ⟨k1, v1⟩ := hd
    by_cases hk1 : k0 = k1
    · rw [← hk1] at h ⊢
      simp only [dictSet, if_pos rfl] at h
      by_cases hk : k = k0
      · subst hk
        simp [dictGet] at h
        exact Or.inl ⟨rfl, h.symm⟩
      · simp only [dictGet, if_neg hk] at h
        exact Or.inr (by simp [dictGet, hk, h])
    · simp only [dictSet, if_neg hk1] at h
      by_cases hk : k = k1
      · subst hk
        simp only [dictGet, if_pos rfl] at h ⊢
        exact Or.inr h
      · simp only [dictGet, if_neg hk] at h
        rcases ih h with h1 | h2
        · exact Or.inl h1
        · exact Or.inr (by simp [dictGet, hk, h2])

/-- A key present in the key list of a dict has a successful lookup. -/
theorem dictGet_isSome_of_mem_keys {α : Type} (d : List (String × α))
    (k : String) (h : k ∈ d.map Prod.fst) : ∃ v, dictGet d k = some v := by
  induction d with
  | nil => simp at h
  | cons hd t ih =>
    obtain ⟨k0, v0⟩ := hd
    by_cases hk : k = k0
    · subst hk
      exact ⟨v0, by simp [dictGet]⟩
    · simp only [List.map_cons, List.mem_cons] at h
      rcases h with h | h
      · exact absurd h hk
      · rcases ih h with ⟨v, hv⟩
        exact ⟨v, by simp [dictGet, hk, hv]⟩

/-- Composing two translations multiplies out to the translation by the sum
of the two offset vectors. -/
theorem tmul_translate (x y z u v w : ℚ) :
    tmul (Transform4.translate x y z) (Transform4.translate u v w)
      = Transform4.translate (x + u) (y + v) (z + w) := by
  simp only [tmul, Transform4.translate, Transform4.mk.injEq]
  and_intros <;> ring

/-- String append acts componentwise on the underlying character lists. -/
theorem str_data_append (a b : String) : (a ++ b).data = a.data ++ b.data := by
  cases a
  cases b
  rfl

/-- Rebuilding a string from its character list is the identity. -/
theorem str_mk_data (s : String) : String.mk s.data = s := by
  cases s
  rfl

/-- A nonempty string has a nonempty character list. -/
theorem str_data_ne_nil (s : String) (h : s ≠ "") : s.data ≠ [] := by
  intro hd
  refine h ?_
  cases s
  simp at hd
  simp [hd]

/-- takeWhile walks through a block of characters that all satisfy the
predicate. -/
theorem takeWhile_append_all (p : Char → Bool) (l r : List Char)
    (h : ∀ a ∈ l, p a = true) :
    (l ++ r).takeWhile p = l ++ r.takeWhile p := by
  induction l with
  | nil => simp
  | cons a t ih =>
    rw [List.cons_append, List.takeWhile_cons_of_pos (by simp [h a (by simp)])]
    simp only [List.cons_append, List.cons.injEq, true_and]
    exact ih (fun a ha => h a (by simp [ha]))

/-- dropWhile skips a block of characters that all satisfy the predicate. -/
theorem dropWhile_append_all (p : Char → Bool) (l r : List Char)
    (h : ∀ a ∈ l, p a = true) :
    (l ++ r).dropWhile p = r.dropWhile p := by
  induction l with
  | nil => simp
  | cons a t ih =>
    rw [List.cons_append, List.dropWhile_cons_of_pos (by simp [h a (by simp)])]
    exact ih (fun a ha => h a (by simp [ha]))

/-- Splitting a name of the shape stem ++ "." ++ ext, where the stem is
nonempty and the extension is nonempty and dot-free, recovers exactly that
stem and that dotted extension — the pathlib suffix rule. -/
theorem splitExt_concat (s : String) (ext : List Char) (hs : s ≠ "")
    (hall : ∀ a ∈ ext, (a != '.') = true) (hne : ext ≠ []) :
    splitExt (s ++ String.mk ('.' :: ext)) = (s, String.mk ('.' :: ext)) := by
  have hdata : (s ++ String.mk ('.' :: ext)).data = s.data ++ '.' :: ext := by
    rw [str_data_append]
  have hrev : (s.data ++ '.' :: ext).reverse
      = ext.reverse ++ '.' :: s.data.reverse := by
    simp [List.reverse_append, List.reverse_cons, List.append_assoc]
  have htake : (ext.reverse ++ '.' :: s.data.reverse).takeWhile
      (fun ch => ch != '.') = ext.reverse := by
    rw [takeWhile_append_all _ _ _ (by intro a ha; exact hall a (List.mem_reverse.mp ha))]
    rw [List.takeWhile_cons_of_neg (by simp)]
    simp
  have hdrop : (ext.reverse ++ '.' :: s.data.reverse).dropWhile
      (fun ch => ch != '.') = '.' :: s.data.reverse := by
    rw [dropWhile_append_all _ _ _ (by intro a ha; exact hall a (List.mem_reverse.mp ha))]
    rw [List.dropWhile_cons_of_neg (by simp)]
  simp only [splitExt, hdata, hrev, htake, hdrop]
  rw [if_neg]
  · simp [List.reverse_reverse, str_mk_data]
  · rw [not_or]
    constructor
    · simpa using hne
    · simpa using str_data_ne_nil s hs

/-- Appending ".xml" to a nonempty name splits back into the name and ".xml". -/
theorem splitExt_xml (s : String) (hs : s ≠ "") :
    splitExt (s ++ ".xml") = (s, ".xml") :=
  splitExt_concat s ['x', 'm', 'l'] hs (by decide) (by decide)

/-- Appending ".geojson" to a nonempty name splits back into the name and
".geojson". -/
theorem splitExt_geojson (s : String) (hs : s ≠ "") :
    splitExt (s ++ ".geojson") = (s, ".geojson") :=
  splitExt_concat s ['g', 'e', 'o', 'j', 's', 'o', 'n'] hs (by decide) (by decide)

/-- The head of a nonempty dropWhile result fails the predicate. -/
theorem dropWhile_cons_head_false (p : Char → Bool) (l : List Char)
    (hd : Char) (pre : List Char) (h : l.dropWhile p = hd :: pre) :
    p hd = false := by
  induction l with
  | nil => simp at h
  | cons a t ih =>
    by_cases hp : p a = true
    · rw [List.dropWhile_cons_of_pos hp] at h
      exact ih h
    · rw [List.dropWhile_cons_of_neg (by simpa using hp)] at h
      cases h
      simpa using hp

/-- Stem and suffix always concatenate back to the original name. -/
theorem splitExt_recomb (n : String) : (splitExt n).1 ++ (splitExt n).2 = n := by
  have hta := List.takeWhile_append_dropWhile (fun ch => ch != '.') n.data.reverse
  simp only [splitExt]
  cases hrest : n.data.reverse.dropWhile (fun ch => ch != '.') with
  | nil =>
    simp
  | cons hd pre =>
    dsimp only
    have hd_eq : hd = '.' := by
      have := dropWhile_cons_head_false (fun ch => ch != '.')
        n.data.reverse hd pre hrest
      simpa using this
    subst hd_eq
    by_cases hcond : (n.data.reverse.takeWhile (fun ch => ch != '.')) = [] ∨ pre = []
    · rw [if_pos hcond]
      simp
    · rw [if_neg hcond]
      have hdataeq : n.data
          = pre.reverse ++ '.' ::
              (n.data.reverse.takeWhile (fun ch => ch != '.')).reverse := by
        have h1 : n.data.reverse
            = (n.data.reverse.takeWhile (fun ch => ch != '.')) ++ '.' :: pre := by
          rw [← hrest]
          exact hta.symm
        have h2 := congrArg List.reverse h1
        simpa [List.reverse_append] using h2
      refine String.ext ?_
      rw [str_data_append]
      exact hdataeq.symm

/-- A list starts with itself, whatever follows. -/
theorem startsWithL_self_append (n r : List Char) :
    startsWithL n (n ++ r) = true := by
  induction n with
  | nil => rfl
  | cons a t ih => simp [startsWithL, ih]

/-- The empty needle is a substring of everything. -/
theorem containsSubL_nil_needle (l : List Char) : containsSubL [] l = true := by
  cases l <;> simp [containsSubL, startsWithL]

/-- Unfolding equation of the substring search on a cons. -/
theorem containsSubL_cons (n : List Char) (a : Char) (l : List Char) :
    containsSubL n (a :: l) = (startsWithL n (a :: l) || containsSubL n l) :=
  rfl

/-- Substring search finds the needle wherever it sits inside the hay. -/
theorem containsSubL_sandwich (n x y : List Char) :
    containsSubL n (x ++ (n ++ y)) = true := by
  induction x with
  | nil =>
    rw [List.nil_append]
    cases n with
    | nil => exact containsSubL_nil_needle y
    | cons a t =>
      rw [List.cons_append, containsSubL_cons]
      have h := startsWithL_self_append (a :: t) y
      rw [List.cons_append] at h
      rw [h]
      simp
  | cons a t ih =>
    rw [List.cons_append, containsSubL_cons, ih]
    simp

/-- String-level version: a string that contains the needle between two other
pieces passes the Python substring test. -/
theorem containsSubStr_sandwich (n x y : String) :
    containsSubStr n (x ++ n ++ y) = true := by
  unfold containsSubStr
  have : (x ++ n ++ y).data = x.data ++ (n.data ++ y.data) := by
    rw [str_data_append, str_data_append, List.append_assoc]
  rw [this]
  exact containsSubL_sandwich n.data x.data y.data

/-- The final component of a joined path is the joined name. -/
theorem nameOf_join (p : PyPath) (s : String) : (p.join s).nameOf = s := by
  simp [PyPath.join, PyPath.nameOf]

/-- Replacing the name of a joined path replaces the joined component. -/
theorem with_name_join (p : PyPath) (s t : String) :
    (p.join s).with_name t = p.join t := by
  simp [PyPath.join, PyPath.with_name]

/-- Replacing the suffix of a joined path rewrites only the last component,
to the old stem followed by the new suffix. -/
theorem with_suffix_join (p : PyPath) (s suf : String) :
    (p.join s).with_suffix suf = p.join ((splitExt s).1 ++ suf) := by
  simp [PyPath.with_suffix, nameOf_join, with_name_join]

/-- Folding the enumeration step over a listing whose qualifying stems are
fresh for the accumulator and pairwise distinct appends exactly the
filter-map of the qualifying entries. -/
theorem foldl_enumStep_eq (dir : PyPath) (l : List DirEntry) :
    ∀ acc : List (String × TileDescriptor),
      (∀ e ∈ l, qualifies e = true → dictGet acc (splitExt e.name).1 = none) →
      List.Pairwise
        (fun a b => qualifies a = true → qualifies b = true →
          (splitExt a.name).1 ≠ (splitExt b.name).1) l →
      l.foldl (enumStep dir) acc
        = acc ++ (l.filter (fun e => qualifies e)).map
            (fun e => ((splitExt e.name).1, mkDescriptor (dir.join e.name))) := by
  induction l with
  | nil => intro acc _ _; simp
  | cons e t ih =>
    intro acc hfresh hpair
    rw [List.pairwise_cons] at hpair
    by_cases hq : qualifies e = true
    · have hstep : (e :: t).foldl (enumStep dir) acc
          = t.foldl (enumStep dir)
              (acc ++ [((splitExt e.name).1, mkDescriptor (dir.join e.name))]) := by
        rw [List.foldl_cons]
        rw [show enumStep dir acc e
            = acc ++ [((splitExt e.name).1, mkDescriptor (dir.join e.name))] from by
          rw [enumStep, if_pos hq,
            dictSet_fresh _ _ _ (hfresh e (by simp) hq)]]
      rw [hstep, ih _ ?_ hpair.2]
      · simp [List.filter_cons, hq, List.append_assoc]
      · intro f hf hqf
        exact dictGet_append_single_none _ _ _ _
          (hfresh f (by simp [hf]) hqf)
          (Ne.symm (hpair.1 f hf hq hqf))
    · rw [List.foldl_cons,
        show enumStep dir acc e = acc from by rw [enumStep, if_neg hq]]
      rw [ih _ (fun f hf hqf => hfresh f (by simp [hf]) hqf) hpair.2]
      simp [List.filter_cons, hq]

/-- Any binding reachable in an enumeration fold is either an accumulator
binding or the descriptor of some qualifying entry of the listing. -/
theorem dictGet_foldl_enumStep (dir : PyPath) (l : List DirEntry) :
    ∀ (acc : List (String × TileDescriptor)) (k : String) (v : TileDescriptor),
      dictGet (l.foldl (enumStep dir) acc) k = some v →
      dictGet acc k = some v ∨
        ∃ e, e ∈ l ∧ qualifies e = true ∧ v = mkDescriptor (dir.join e.name) := by
  induction l with
  | nil =>
    intro acc k v h
    exact Or.inl h
  | cons e t ih =>
    intro acc k v h
    rw [List.foldl_cons] at h
    by_cases hq : qualifies e = true
    · rw [show enumStep dir acc e
          = dictSet acc (splitExt e.name).1 (mkDescriptor (dir.join e.name)) from by
        rw [enumStep, if_pos hq]] at h
      rcases ih _ _ _ h with h1 | ⟨f, hf, hqf, hv⟩
      · rcases dictGet_dictSet_cases _ _ _ _ _ h1 with ⟨_, hv⟩ | h2
        · exact Or.inr ⟨e, by simp, hq, hv⟩
        · exact Or.inl h2
      · exact Or.inr ⟨f, by simp [hf], hqf, hv⟩
    · rw [show enumStep dir acc e = acc from by rw [enumStep, if_neg hq]] at h
      rcases ih _ _ _ h with h1 | ⟨f, hf, hqf, hv⟩
      · exact Or.inl h1
      · exact Or.inr ⟨f, by simp [hf], hqf, hv⟩

/-- The per-model scene loop never disturbs dict keys that are not the
Model_ID of any folded feature. -/
theorem sceneFold_preserve (readMesh : PyPath → Mesh)
    (mp op : PyPath) (C : ℚ × ℚ) (l : List Feature) :
    ∀ (st : SceneDict × List Nat × List FsEffect) (k : String),
      (∀ f ∈ l, f.model_id ≠ k) →
      dictGet (l.foldl (sceneLoopStep readMesh mp op C) st).1 k
        = dictGet st.1 k := by
  induction l with
  | nil => intro st k _; rfl
  | cons f t ih =>
    intro st k hk
    rw [List.foldl_cons, ih _ _ (fun g hg => hk g (by simp [hg]))]
    exact dictGet_dictSet_ne _ _ _ _ (fun hc => hk f (by simp) hc.symm)

/-- After the per-model loop, each feature of a Model_ID-distinct collection
is bound in the scene dict to its own placement entry: mesh path from its id,
material from its StructType, and the to_world transform of get_mi_dict
composed with the tile-center offset. -/
theorem sceneFold_lookup (readMesh : PyPath → Mesh)
    (mp op : PyPath) (C : ℚ × ℚ) (l : List Feature) :
    ∀ (st : SceneDict × List Nat × List FsEffect) (f : Feature),
      f ∈ l → (l.map Feature.model_id).Nodup →
      dictGet (l.foldl (sceneLoopStep readMesh mp op C) st).1 f.model_id
        = some (addTileOffset C (SceneEntry.model
            ((mp.join f.model_id).with_suffix ".ply")
            (if f.struct_type = "Wall" then "mat-itu_brick" else "mat-itu_concrete")
            (Transform4.translate f.centroid.1 f.centroid.2 0))) := by
  induction l with
  | nil => intro st f hf; simp at hf
  | cons g t ih =>
    intro st f hf hnd
    rw [List.map_cons, List.nodup_cons] at hnd
    rcases List.mem_cons.mp hf with hfg | hft
    · subst hfg
      rw [List.foldl_cons]
      rw [sceneFold_preserve readMesh mp op C t _ f.model_id
        (fun h hh hc => hnd.1 (hc ▸ List.mem_map_of_mem Feature.model_id hh))]
      exact dictGet_dictSet_self _ _ _
    · rw [List.foldl_cons]
      exact ih _ f hft hnd.2

/-- The assembled in-memory scene dict does not depend on which branch the
final output-path derivation takes. -/
theorem genScene_scene_dict (m : BostonModelState) (c : Collaborators)
    (model_gdf : List Feature) (scene_center : ℚ × ℚ) (scene_name : String) :
    (generate_scene_from_model_gdf m c model_gdf scene_center scene_name).scene_dict
      = (assembleScene c.readMesh m (c.gdf2localcrs model_gdf) scene_center
          scene_name).1 := by
  rcases hm : m.out_dataset_dir with _ | od <;>
    simp [generate_scene_from_model_gdf, hm]

/-- The reported model count of a run is the size of the reprojected frame. -/
theorem genScene_n_models (m : BostonModelState) (c : Collaborators)
    (model_gdf : List Feature) (scene_center : ℚ × ℚ) (scene_name : String) :
    (generate_scene_from_model_gdf m c model_gdf scene_center scene_name).n_models_tile
      = (c.gdf2localcrs model_gdf).length := by
  rcases hm : m.out_dataset_dir with _ | od <;>
    simp [generate_scene_from_model_gdf, hm]

/-- The triangle total of a run is the sum of the loop's n_tri list. -/
theorem genScene_tile_n_tri (m : BostonModelState) (c : Collaborators)
    (model_gdf : List Feature) (scene_center : ℚ × ℚ) (scene_name : String) :
    (generate_scene_from_model_gdf m c model_gdf scene_center scene_name).tile_n_tri
      = (assembleScene c.readMesh m (c.gdf2localcrs model_gdf) scene_center
          scene_name).2.1.sum := by
  rcases hm : m.out_dataset_dir with _ | od <;>
    simp [generate_scene_from_model_gdf, hm]

/-- Every effect of the assembly phase is also an effect of the full run. -/
theorem genScene_effects_sup (m : BostonModelState) (c : Collaborators)
    (model_gdf : List Feature) (scene_center : ℚ × ℚ) (scene_name : String)
    (e : FsEffect)
    (he : e ∈ (assembleScene c.readMesh m (c.gdf2localcrs model_gdf) scene_center
        scene_name).2.2) :
    e ∈ (generate_scene_from_model_gdf m c model_gdf scene_center scene_name).effects := by
  rcases hm : m.out_dataset_dir with _ | od <;>
    simp [generate_scene_from_model_gdf, hm]
  · exact he
  · exact Or.inl he

/-- The scene loop only appends effects, so accumulated effects persist. -/
theorem sceneFold_effects_mono (readMesh : PyPath → Mesh)
    (mp op : PyPath) (C : ℚ × ℚ) (l : List Feature) :
    ∀ (st : SceneDict × List Nat × List FsEffect) (e : FsEffect),
      e ∈ st.2.2 → e ∈ (l.foldl (sceneLoopStep readMesh mp op C) st).2.2 := by
  induction l with
  | nil => intro st e he; exact he
  | cons f t ih =>
    intro st e he
    rw [List.foldl_cons]
    exact ih _ e (by simp [sceneLoopStep, get_mi_dict]; exact Or.inl he)

/-- Every effect the scene loop can accumulate over a mesh-only start state
is a mesh read or a mesh write. -/
def isMeshEffectB : FsEffect → Bool
  | .readMesh _ => true
  | .writeMesh _ => true
  | _ => false

/-- A mkdir classifier for the simplifier's pre-failure effects. -/
def isMkdirB : FsEffect → Bool
  | .mkdir _ => true
  | _ => false

/-- The scene loop preserves the invariant that all effects are mesh I/O. -/
theorem sceneFold_effects_mesh (readMesh : PyPath → Mesh)
    (mp op : PyPath) (C : ℚ × ℚ) (l : List Feature) :
    ∀ (st : SceneDict × List Nat × List FsEffect),
      (∀ e ∈ st.2.2, isMeshEffectB e = true) →
      ∀ e ∈ (l.foldl (sceneLoopStep readMesh mp op C) st).2.2,
        isMeshEffectB e = true := by
  induction l with
  | nil => intro st h e he; exact h e he
  | cons f t ih =>
    intro st h e he
    rw [List.foldl_cons] at he
    refine ih _ ?_ e he
    intro e2 he2
    simp only [sceneLoopStep, get_mi_dict] at he2
    rcases List.mem_append.mp he2 with h2 | h2
    · exact h e2 h2
    · simp at h2
      simp [h2, isMeshEffectB]

/-- Composing the centroid translation with the tile-center offset yields the
translation by the centroid minus the tile center. -/
theorem addTileOffset_translate (C : ℚ × ℚ) (p : PyPath) (mat : String)
    (x y : ℚ) :
    addTileOffset C (SceneEntry.model p mat (Transform4.translate x y 0))
      = SceneEntry.model p mat
          (Transform4.translate (x - C.1) (y - C.2) 0) := by
  simp [addTileOffset, tmul_translate, sub_eq_add_neg]

/-- The keys of every enumerated descriptor, in insertion order. -/
theorem mkDescriptor_keys (q : PyPath) :
    (mkDescriptor q).map Prod.fst
      = ["tileinfo_path", "geo_scene_path", "mi_scene_path"] := rfl

/-- No enumerated descriptor carries a "models" binding. -/
theorem mkDescriptor_models_none (q : PyPath) :
    dictGet (mkDescriptor q) "models" = none := rfl

/-- The descriptor of a joined scene file, with every companion path written
out explicitly: metadata path from the stem, the original path, and the
renderer scene path from the stem. -/
theorem mkDescriptor_join (dir : PyPath) (n : String) :
    mkDescriptor (dir.join n)
      = [("tileinfo_path",
            DescValue.path (dir.join ((splitExt n).1 ++ "_tileinfo.geojson"))),
         ("geo_scene_path", DescValue.path (dir.join n)),
         ("mi_scene_path",
            DescValue.path (dir.join ((splitExt n).1 ++ ".xml")))] := by
  simp [mkDescriptor, nameOf_join, with_name_join, with_suffix_join]

/-- String append is associative. -/
theorem str_append_assoc (a b c : String) : (a ++ b) ++ c = a ++ (b ++ c) := by
  refine String.ext ?_
  simp [str_data_append, List.append_assoc]

/-- Count of entries of a scene dict whose value satisfies a classifier. -/
def countEntries (d : SceneDict) (p : SceneEntry → Bool) : Nat :=
  (d.filter (fun kv => p kv.2)).length

/-- Material entry classifier. -/
def isMaterialB : SceneEntry → Bool
  | .material _ => true
  | _ => false

/-- Ground entry classifier. -/
def isGroundB : SceneEntry → Bool
  | .ground _ _ _ _ _ _ => true
  | _ => false

/-- Model entry classifier. -/
def isModelB : SceneEntry → Bool
  | .model _ _ _ => true
  | _ => false

/-- The material reference of the model entry stored under a key, if any. -/
def modelMaterialAt (d : SceneDict) (k : String) : Option String :=
  match dictGet d k with
  | some (.model _ mat _) => some mat
  | _ => none

/-- A concrete dataset directory used by the concrete instantiations below. -/
def sampleDir : PyPath := ⟨["ds"]⟩

/-- A concrete directory listing holding one tile file. -/
def sampleListing : List DirEntry := [⟨"t.geojson", true⟩]

/-- The descriptor the enumeration derives for the sample tile. -/
def sampleDesc : TileDescriptor :=
  [("tileinfo_path", DescValue.path ⟨["ds", "t_tileinfo.geojson"]⟩),
   ("geo_scene_path", DescValue.path ⟨["ds", "t.geojson"]⟩),
   ("mi_scene_path", DescValue.path ⟨["ds", "t.xml"]⟩)]

/-- The state the constructor builds from the sample directory. -/
def sampleState : BostonModelState :=
  { dataset_dir := sampleDir
    mesh_dir := ⟨["ds", "meshes"]⟩
    tiles_dict := [("t", sampleDesc)]
    tile_names := ["t"]
    n_tiles := 1
    flat := true
    out_dataset_dir := none }

/-- Concrete collaborators: trivial filesystem, constant meshes, identity
reprojection and smoothing, zero clock. -/
def sampleCollab : Collaborators :=
  { dirExists := fun _ => false
    readText := fun _ => "file-content"
    readMesh := fun _ => ⟨4, 2⟩
    filter_smooth_simple := fun _ mh => mh
    simplify_vertex_clustering := fun _ mh => mh
    gdf2localcrs := id
    clock := fun _ => 0 }

/-- C10: the constructor declares Union[Path, str] but calls joinpath on the
original argument (line 25), so every str argument raises AttributeError
while deriving the mesh directory, and only Path arguments yield a
constructed instance. -/
theorem c10_str_constructor_fails :
    (∀ (s : String) (listing : List DirEntry),
      BostonModel_init (.str s) listing
        = .error (.attributeError "joinpath")) ∧
    (∀ (p : PyPath) (listing : List DirEntry),
      ∃ st, BostonModel_init (.path p) listing = .ok st) := by
  constructor
  · intro s listing
    rfl
  · intro p listing
    exact ⟨_, rfl⟩

/-- C2: over a listing of distinct names, enumeration returns exactly one
entry per regular ".geojson" file whose stem avoids "tileinfo", keyed by
stem, with the original file as geo_scene_path, the stem plus ".xml" as
mi_scene_path and the stem plus "_tileinfo.geojson" as tileinfo_path; and
n_tiles stores the size of the mapping. -/
theorem c2_enumeration (dir : PyPath) (listing : List DirEntry)
    (hnd : (listing.map DirEntry.name).Nodup) :
    enumerate_scenes dir listing
      = (listing.filter (fun e => e.isFile
            && ((splitExt e.name).2 == ".geojson")
            && !(containsSubStr "tileinfo" (splitExt e.name).1))).map
          (fun e => ((splitExt e.name).1,
            [("tileinfo_path",
                DescValue.path (dir.join ((splitExt e.name).1 ++ "_tileinfo.geojson"))),
             ("geo_scene_path", DescValue.path (dir.join e.name)),
             ("mi_scene_path",
                DescValue.path (dir.join ((splitExt e.name).1 ++ ".xml")))]))
    ∧ ∀ st, BostonModel_init (.path dir) listing = .ok st →
        st.n_tiles = (enumerate_scenes dir listing).length := by
  constructor
  · have hpair : List.Pairwise
        (fun a b => qualifies a = true → qualifies b = true →
          (splitExt a.name).1 ≠ (splitExt b.name).1) listing := by
      have h1 : listing.Pairwise (fun a b => a.name ≠ b.name) :=
        List.pairwise_map.mp hnd
      refine h1.imp ?_
      intro a b hne hqa hqb hstem
      have ha := splitExt_recomb a.name
      have hb := splitExt_recomb b.name
      simp only [qualifies, Bool.and_eq_true, beq_iff_eq, Bool.not_eq_eq_eq_not,
        Bool.not_true] at hqa hqb
      refine hne ?_
      rw [← ha, ← hb, hstem, hqa.1.2, hqb.1.2]
    rw [enumerate_scenes,
      foldl_enumStep_eq dir listing [] (fun e _ _ => rfl) hpair]
    simp [mkDescriptor_join, qualifies]
  · intro st h
    simp only [BostonModel_init] at h
    cases h
    rfl

/-- The concrete listing for the C2 witness. -/
def c2_listingW : List DirEntry :=
  sampleListing ++ [⟨"t_tileinfo.geojson", true⟩, ⟨"notes.txt", true⟩,
    ⟨"meshes", false⟩]

/-- C2 witness at a concrete listing of four directory entries. -/
theorem c2_enumeration_witness :
    ((c2_listingW.map DirEntry.name).Nodup) ∧
    (enumerate_scenes sampleDir c2_listingW
      = (c2_listingW.filter (fun e => e.isFile
            && ((splitExt e.name).2 == ".geojson")
            && !(containsSubStr "tileinfo" (splitExt e.name).1))).map
          (fun e => ((splitExt e.name).1,
            [("tileinfo_path",
                DescValue.path (sampleDir.join ((splitExt e.name).1 ++ "_tileinfo.geojson"))),
             ("geo_scene_path", DescValue.path (sampleDir.join e.name)),
             ("mi_scene_path",
                DescValue.path (sampleDir.join ((splitExt e.name).1 ++ ".xml")))]))
    ∧ ∀ st, BostonModel_init (.path sampleDir) c2_listingW = .ok st →
        st.n_tiles = (enumerate_scenes sampleDir c2_listingW).length) :=
  ⟨by decide, c2_enumeration sampleDir c2_listingW (by decide)⟩

/-- C3: for a known tile name, calling the simplifier with the output
directory equal to the dataset directory always raises FileExistsError with
no filesystem effect at all — the check fires before anything is read,
created or written. -/
theorem c3_overwrite_rejected (m : BostonModelState) (c : Collaborators)
    (scene_in_name : String) (d : TileDescriptor)
    (precision : ℚ) (smooth : Bool) (n_smooth_iterations : Nat)
    (hmem : scene_in_name ∈ m.tile_names)
    (hdict : dictGet m.tiles_dict scene_in_name = some d) :
    generate_simplified_dataset m c scene_in_name m.dataset_dir precision
        smooth n_smooth_iterations
      = ⟨[], [], .error (.fileExistsError overwriteMsg)⟩ := by
  simp only [generate_simplified_dataset]
  rw [if_pos hmem, hdict]
  simp

/-- C3 witness on the sample state. -/
theorem c3_overwrite_rejected_witness :
    ("t" ∈ sampleState.tile_names
        ∧ dictGet sampleState.tiles_dict "t" = some sampleDesc) ∧
    generate_simplified_dataset sampleState sampleCollab "t"
        sampleState.dataset_dir 1 false 1
      = ⟨[], [], .error (.fileExistsError overwriteMsg)⟩ :=
  ⟨⟨by decide, rfl⟩,
    c3_overwrite_rejected sampleState sampleCollab "t" sampleDesc 1 false 1
      (by decide) rfl⟩

/-- C4: an unknown tile name makes the simplifier raise KeyError with a
message naming the valid tile-name set, with no filesystem effect; the
message contains the rendered tile-name list as a substring. -/
theorem c4_unknown_tile (m : BostonModelState) (c : Collaborators)
    (scene_in_name : String) (out_dir : PyPath) (precision : ℚ)
    (smooth : Bool) (n_smooth_iterations : Nat)
    (h : scene_in_name ∉ m.tile_names) :
    generate_simplified_dataset m c scene_in_name out_dir precision smooth
        n_smooth_iterations
      = ⟨[], [], .error (.keyError
          (unknownSceneMsg m.dataset_dir m.tile_names scene_in_name))⟩
    ∧ containsSubStr (toString m.tile_names)
        (unknownSceneMsg m.dataset_dir m.tile_names scene_in_name) = true := by
  constructor
  · simp only [generate_simplified_dataset]
    rw [if_neg h]
  · show containsSubStr (toString m.tile_names)
      ((("scene_name must correspond to one of the scenes name in "
          ++ toString m.dataset_dir ++ ": ") ++ toString m.tile_names)
        ++ "\nInstead: " ++ scene_in_name) = true
    rw [str_append_assoc _ "\nInstead: " scene_in_name]
    exact containsSubStr_sandwich (toString m.tile_names) _ _

/-- C4 witness on the sample state with an unknown name. -/
theorem c4_unknown_tile_witness :
    ("zzz" ∉ sampleState.tile_names) ∧
    (generate_simplified_dataset sampleState sampleCollab "zzz"
        ⟨["out"]⟩ 1 false 1
      = ⟨[], [], .error (.keyError
          (unknownSceneMsg sampleState.dataset_dir sampleState.tile_names "zzz"))⟩
    ∧ containsSubStr (toString sampleState.tile_names)
        (unknownSceneMsg sampleState.dataset_dir sampleState.tile_names "zzz")
          = true) :=
  ⟨by decide,
    c4_unknown_tile sampleState sampleCollab "zzz" ⟨["out"]⟩ 1 false 1
      (by decide)⟩

/-- C7: on any run of the simplifier that reaches the copy step and returns
normally (the model list being supplied through the descriptor's "models"
binding, which the spec directs to treat as a required explicit input), the
tile's .xml scene file and its .geojson geo-scene file are written into the
output directory with exactly the content read from the sources — a pure
text read/write copy with no transformation. -/
theorem c7_copy_unchanged (m : BostonModelState) (c : Collaborators)
    (scene_in_name : String) (out_dir : PyPath) (d : TileDescriptor)
    (model_list : List String) (precision : ℚ) (smooth : Bool)
    (n_smooth_iterations : Nat)
    (hname : scene_in_name ≠ "")
    (hmem : scene_in_name ∈ m.tile_names)
    (hdict : dictGet m.tiles_dict scene_in_name = some d)
    (hmodels : dictGet d "models" = some (.models model_list))
    (hout : m.dataset_dir ≠ out_dir) :
    (generate_simplified_dataset m c scene_in_name out_dir precision smooth
        n_smooth_iterations).outcome = .ok () ∧
    FsEffect.writeText (out_dir.join (scene_in_name ++ ".xml"))
        (c.readText (m.dataset_dir.join (scene_in_name ++ ".xml")))
      ∈ (generate_simplified_dataset m c scene_in_name out_dir precision smooth
          n_smooth_iterations).effects ∧
    FsEffect.writeText (out_dir.join (scene_in_name ++ ".geojson"))
        (c.readText (m.dataset_dir.join (scene_in_name ++ ".geojson")))
      ∈ (generate_simplified_dataset m c scene_in_name out_dir precision smooth
          n_smooth_iterations).effects := by
  have hws : (m.dataset_dir.join (scene_in_name ++ ".xml")).with_suffix ".geojson"
      = m.dataset_dir.join (scene_in_name ++ ".geojson") := by
    rw [with_suffix_join, splitExt_xml scene_in_name hname]
  simp only [generate_simplified_dataset]
  rw [if_pos hmem, hdict]
  simp only [if_neg hout]
  rw [hmodels]
  refine ⟨rfl, ?_, ?_⟩
  · simp [nameOf_join, List.mem_append]
  · simp [hws, nameOf_join, List.mem_append]

/-- The sample descriptor extended with the explicit model list the spec
directs an implementer to supply. -/
def sampleDescM : TileDescriptor :=
  [("tileinfo_path", DescValue.path ⟨["ds", "t_tileinfo.geojson"]⟩),
   ("geo_scene_path", DescValue.path ⟨["ds", "t.geojson"]⟩),
   ("mi_scene_path", DescValue.path ⟨["ds", "t.xml"]⟩),
   ("models", DescValue.models ["m1"])]

/-- The sample state rewired so that its tile descriptor carries the model
list. -/
def sampleStateM : BostonModelState :=
  { sampleState with tiles_dict := [("t", sampleDescM)] }

/-- C7 witness on the rewired sample state and concrete collaborators. -/
theorem c7_copy_unchanged_witness :
    ("t" ≠ "" ∧ "t" ∈ sampleStateM.tile_names
      ∧ dictGet sampleStateM.tiles_dict "t" = some sampleDescM
      ∧ dictGet sampleDescM "models" = some (DescValue.models ["m1"])
      ∧ sampleStateM.dataset_dir ≠ ⟨["out"]⟩) ∧
    ((generate_simplified_dataset sampleStateM sampleCollab "t" ⟨["out"]⟩
        1 false 1).outcome = .ok () ∧
    FsEffect.writeText ((⟨["out"]⟩ : PyPath).join ("t" ++ ".xml"))
        (sampleCollab.readText (sampleStateM.dataset_dir.join ("t" ++ ".xml")))
      ∈ (generate_simplified_dataset sampleStateM sampleCollab "t" ⟨["out"]⟩
          1 false 1).effects ∧
    FsEffect.writeText ((⟨["out"]⟩ : PyPath).join ("t" ++ ".geojson"))
        (sampleCollab.readText (sampleStateM.dataset_dir.join ("t" ++ ".geojson")))
      ∈ (generate_simplified_dataset sampleStateM sampleCollab "t" ⟨["out"]⟩
          1 false 1).effects) :=
  ⟨⟨by decide, by decide, rfl, rfl, by decide⟩,
    c7_copy_unchanged sampleStateM sampleCollab "t" ⟨["out"]⟩ sampleDescM
      ["m1"] 1 false 1 (by decide) (by decide) rfl rfl (by decide)⟩

/-- C8: every enumerated descriptor has exactly the keys tileinfo_path,
geo_scene_path, mi_scene_path (in particular no "models"), and the
constructor leaves out_dataset_dir unset; consequently the simplifier, after
its tile-name and output-directory checks pass, dies with KeyError "models"
having caused at most a mkdir (no mesh read, no file read or write), and the
scene assembler dies with AttributeError at the self.out_dataset_dir access,
its effects being mesh I/O only — the scene file is never written. -/
theorem c8_placeholder_wiring (p : PyPath) (listing : List DirEntry)
    (m : BostonModelState) (c : Collaborators) (scene_in_name : String)
    (out_dir : PyPath) (d : TileDescriptor) (precision : ℚ) (smooth : Bool)
    (n_smooth_iterations : Nat) (model_gdf : List Feature)
    (scene_center : ℚ × ℚ) (scene_name : String)
    (hinit : BostonModel_init (.path p) listing = .ok m)
    (hmem : scene_in_name ∈ m.tile_names)
    (hdict : dictGet m.tiles_dict scene_in_name = some d)
    (hout : m.dataset_dir ≠ out_dir) :
    d.map Prod.fst = ["tileinfo_path", "geo_scene_path", "mi_scene_path"] ∧
    m.out_dataset_dir = none ∧
    ((generate_simplified_dataset m c scene_in_name out_dir precision smooth
        n_smooth_iterations).outcome = .error (.keyError "models") ∧
      ∀ e ∈ (generate_simplified_dataset m c scene_in_name out_dir precision
          smooth n_smooth_iterations).effects, isMkdirB e = true) ∧
    ((generate_scene_from_model_gdf m c model_gdf scene_center
        scene_name).outcome = .error (.attributeError "out_dataset_dir") ∧
      ∀ e ∈ (generate_scene_from_model_gdf m c model_gdf scene_center
          scene_name).effects, isMeshEffectB e = true) := by
  have hdesc : ∃ q, d = mkDescriptor q := by
    simp only [BostonModel_init] at hinit
    cases hinit
    rcases dictGet_foldl_enumStep p listing [] scene_in_name d hdict with
      h0 | ⟨e, _, _, hv⟩
    · simp [dictGet] at h0
    · exact ⟨p.join e.name, hv⟩
  rcases hdesc with ⟨q, hq⟩
  have hmodels : dictGet d "models" = none := by
    rw [hq]
    exact mkDescriptor_models_none q
  have hnone : m.out_dataset_dir = none := by
    simp only [BostonModel_init] at hinit
    cases hinit
    rfl
  refine ⟨by rw [hq]; exact mkDescriptor_keys q, hnone, ⟨?_, ?_⟩, ⟨?_, ?_⟩⟩
  · simp only [generate_simplified_dataset]
    rw [if_pos hmem, hdict]
    simp only [if_neg hout]
    rw [hmodels]
  · simp only [generate_simplified_dataset]
    rw [if_pos hmem, hdict]
    simp only [if_neg hout]
    rw [hmodels]
    intro e he
    simp only [] at he
    by_cases hdir : c.dirExists (out_dir.join "meshes") = true
    · simp [hdir] at he
    · simp [hdir] at he
      simp [he, isMkdirB]
  · simp only [generate_scene_from_model_gdf, hnone]
  · intro e he
    have heff : (generate_scene_from_model_gdf m c model_gdf scene_center
        scene_name).effects
        = (assembleScene c.readMesh m (c.gdf2localcrs model_gdf) scene_center
            scene_name).2.2 := by
      simp [generate_scene_from_model_gdf, hnone]
    rw [heff] at he
    revert he
    simp only [assembleScene]
    refine sceneFold_effects_mesh c.readMesh m.mesh_dir m.dataset_dir
      scene_center _ _ ?_ e
    intro e2 he2
    simp only [create_ground] at he2
    rcases List.mem_cons.mp he2 with h2 | h2
    · simp [h2, isMeshEffectB]
    · rcases List.mem_cons.mp h2 with h3 | h3
      · simp [h3, isMeshEffectB]
      · simp at h3

/-- C8 witness on the enumerated sample state. -/
theorem c8_placeholder_wiring_witness :
    (BostonModel_init (.path sampleDir) sampleListing = .ok sampleState
      ∧ "t" ∈ sampleState.tile_names
      ∧ dictGet sampleState.tiles_dict "t" = some sampleDesc
      ∧ sampleState.dataset_dir ≠ ⟨["out"]⟩) ∧
    (sampleDesc.map Prod.fst
        = ["tileinfo_path", "geo_scene_path", "mi_scene_path"] ∧
     sampleState.out_dataset_dir = none ∧
     ((generate_simplified_dataset sampleState sampleCollab "t" ⟨["out"]⟩
          1 false 1).outcome = .error (.keyError "models") ∧
       ∀ e ∈ (generate_simplified_dataset sampleState sampleCollab "t"
          ⟨["out"]⟩ 1 false 1).effects, isMkdirB e = true) ∧
     ((generate_scene_from_model_gdf sampleState sampleCollab [] (0, 0)
          "t").outcome = .error (.attributeError "out_dataset_dir") ∧
       ∀ e ∈ (generate_scene_from_model_gdf sampleState sampleCollab [] (0, 0)
          "t").effects, isMeshEffectB e = true)) :=
  ⟨⟨rfl, by decide, rfl, by decide⟩,
    c8_placeholder_wiring sampleDir sampleListing sampleState sampleCollab "t"
      ⟨["out"]⟩ sampleDesc 1 false 1 [] (0, 0) "t" rfl (by decide) rfl
      (by decide)⟩

/-- C1: in the assembled scene dict, every feature of a Model_ID-distinct
reprojected collection is stored under its Model_ID with a placement whose
to_world transform is exactly the translation by (centroid minus tile center,
0): the composition of get_mi_dict's centroid translation with the
tile-center offset of lines 228-230 multiplies out to it. -/
theorem c1_placement_transform (m : BostonModelState) (c : Collaborators)
    (model_gdf : List Feature) (scene_center : ℚ × ℚ) (scene_name : String)
    (f : Feature)
    (hnd : ((c.gdf2localcrs model_gdf).map Feature.model_id).Nodup)
    (hf : f ∈ c.gdf2localcrs model_gdf) :
    dictGet (generate_scene_from_model_gdf m c model_gdf scene_center
        scene_name).scene_dict f.model_id
      = some (SceneEntry.model ((m.mesh_dir.join f.model_id).with_suffix ".ply")
          (if f.struct_type = "Wall" then "mat-itu_brick" else "mat-itu_concrete")
          (Transform4.translate (f.centroid.1 - scene_center.1)
            (f.centroid.2 - scene_center.2) 0)) := by
  rw [genScene_scene_dict]
  simp only [assembleScene]
  rw [sceneFold_lookup c.readMesh m.mesh_dir m.dataset_dir scene_center
    (c.gdf2localcrs model_gdf) _ f hf hnd]
  rw [addTileOffset_translate]

/-- The feature used by the C1 witness. -/
def c1_featW : Feature := ⟨"B1", "Wall", (3, 4), (0, 0, 1, 1)⟩

/-- C1 witness on a singleton collection with tile center (1, 2). -/
theorem c1_placement_transform_witness :
    (((sampleCollab.gdf2localcrs [c1_featW]).map Feature.model_id).Nodup
      ∧ c1_featW ∈ sampleCollab.gdf2localcrs [c1_featW]) ∧
    dictGet (generate_scene_from_model_gdf sampleState sampleCollab [c1_featW]
        (1, 2) "t").scene_dict c1_featW.model_id
      = some (SceneEntry.model
          ((sampleState.mesh_dir.join c1_featW.model_id).with_suffix ".ply")
          (if c1_featW.struct_type = "Wall" then "mat-itu_brick"
            else "mat-itu_concrete")
          (Transform4.translate (c1_featW.centroid.1 - (1, (2 : ℚ)).1)
            (c1_featW.centroid.2 - (1, (2 : ℚ)).2) 0)) :=
  ⟨⟨by decide, by decide⟩,
    c1_placement_transform sampleState sampleCollab [c1_featW] (1, 2) "t"
      c1_featW (by decide) (by decide)⟩

/-- The Wall feature of the C5 scenario (its mesh holds 10 triangles). -/
def c5_wall : Feature := ⟨"BldgA", "Wall", (0, 0), (0, 0, 10, 10)⟩

/-- The non-Wall feature of the C5 scenario (its mesh holds 20 triangles). -/
def c5_other : Feature := ⟨"BldgB", "Roof", (5, 5), (2, 2, 8, 8)⟩

/-- Collaborators for the C5 scenario: the Wall mesh file has 10 triangles,
every other mesh 20. -/
def c5_collab : Collaborators :=
  { sampleCollab with
      readMesh := fun p =>
        if p = ⟨["ds", "meshes", "BldgA.ply"]⟩ then ⟨30, 10⟩ else ⟨60, 20⟩ }

/-- The C5 scenario run: two model features, tile center (0, 0). -/
def c5_run : SceneRun :=
  generate_scene_from_model_gdf sampleState c5_collab [c5_wall, c5_other]
    (0, 0) "t"

/-- C5: the two-feature scenario yields exactly 3 material entries, 1 ground
entry and 2 model entries; the Wall feature gets the brick material and the
other feature the concrete material; and the triangle total is 10 + 20 = 30. -/
theorem c5_two_feature_scenario :
    countEntries c5_run.scene_dict isMaterialB = 3 ∧
    countEntries c5_run.scene_dict isGroundB = 1 ∧
    countEntries c5_run.scene_dict isModelB = 2 ∧
    modelMaterialAt c5_run.scene_dict "BldgA" = some "mat-itu_brick" ∧
    modelMaterialAt c5_run.scene_dict "BldgB" = some "mat-itu_concrete" ∧
    c5_run.tile_n_tri = 30 :=
  ⟨rfl, rfl, rfl, rfl, rfl, rfl⟩

/-- C6: the scalar tile size is the width (max x minus min x) of the
reprojected collection's bounding box, and the ground entry of the scene dict
scales the frame mesh by exactly that width over two plus 100, carries the
medium-dry-ground material, sits at the local origin with z = 0, and is built
from the unit rectangle mesh read from meshes/rectangle.ply. -/
theorem c6_ground_plane (m : BostonModelState) (c : Collaborators)
    (model_gdf : List Feature) (scene_center : ℚ × ℚ) (scene_name : String)
    (hne : c.gdf2localcrs model_gdf ≠ [])
    (hng : "ground" ∉ (c.gdf2localcrs model_gdf).map Feature.model_id) :
    dictGet (generate_scene_from_model_gdf m c model_gdf scene_center
        scene_name).scene_dict "ground"
      = some (SceneEntry.ground
          (m.mesh_dir.join (scene_name ++ "_Frame" ++ ".ply"))
          "mat-itu_medium_dry_ground" 0 0 0
          (((total_bounds (c.gdf2localcrs model_gdf)).2.2.1
              - (total_bounds (c.gdf2localcrs model_gdf)).1) / 2 + 100)) ∧
    FsEffect.readMesh (m.mesh_dir.join "rectangle.ply")
      ∈ (generate_scene_from_model_gdf m c model_gdf scene_center
          scene_name).effects := by
  constructor
  · rw [genScene_scene_dict]
    simp only [assembleScene]
    rw [sceneFold_preserve c.readMesh m.mesh_dir m.dataset_dir scene_center _ _
      "ground"
      (fun g hg hc => hng (hc ▸ List.mem_map_of_mem Feature.model_id hg))]
    simp only [create_ground]
    rw [dictGet_dictSet_self]
  · refine genScene_effects_sup m c model_gdf scene_center scene_name _ ?_
    simp only [assembleScene]
    refine sceneFold_effects_mono c.readMesh m.mesh_dir m.dataset_dir
      scene_center _ _ _ ?_
    simp [create_ground]

/-- C6 witness on a singleton collection. -/
theorem c6_ground_plane_witness :
    (sampleCollab.gdf2localcrs [c5_wall] ≠ []
      ∧ "ground" ∉ (sampleCollab.gdf2localcrs [c5_wall]).map Feature.model_id) ∧
    (dictGet (generate_scene_from_model_gdf sampleState sampleCollab [c5_wall]
        (0, 0) "t").scene_dict "ground"
      = some (SceneEntry.ground
          (sampleState.mesh_dir.join ("t" ++ "_Frame" ++ ".ply"))
          "mat-itu_medium_dry_ground" 0 0 0
          (((total_bounds (sampleCollab.gdf2localcrs [c5_wall])).2.2.1
              - (total_bounds (sampleCollab.gdf2localcrs [c5_wall])).1) / 2
            + 100)) ∧
    FsEffect.readMesh (sampleState.mesh_dir.join "rectangle.ply")
      ∈ (generate_scene_from_model_gdf sampleState sampleCollab [c5_wall]
          (0, 0) "t").effects) :=
  ⟨⟨by decide, by decide⟩,
    c6_ground_plane sampleState sampleCollab [c5_wall] (0, 0) "t" (by decide)
      (by decide)⟩

/-- C9: two assembly runs over the same state, feature collection, tile
center and tile name, whose collaborators read the same meshes and reproject
identically (the clock and the rest of the filesystem may differ), report the
same model count and the same triangle total. -/
theorem c9_deterministic_aggregates (m : BostonModelState)
    (c1 c2 : Collaborators) (model_gdf : List Feature)
    (scene_center : ℚ × ℚ) (scene_name : String)
    (hmesh : c1.readMesh = c2.readMesh)
    (hcrs : c1.gdf2localcrs = c2.gdf2localcrs) :
    (generate_scene_from_model_gdf m c1 model_gdf scene_center
        scene_name).n_models_tile
      = (generate_scene_from_model_gdf m c2 model_gdf scene_center
          scene_name).n_models_tile
    ∧ (generate_scene_from_model_gdf m c1 model_gdf scene_center
        scene_name).tile_n_tri
      = (generate_scene_from_model_gdf m c2 model_gdf scene_center
          scene_name).tile_n_tri := by
  constructor
  · rw [genScene_n_models, genScene_n_models, hcrs]
  · rw [genScene_tile_n_tri, genScene_tile_n_tri, hmesh, hcrs]

/-- A second collaborator set for the C9 witness: same meshes and
reprojection, different clock and filesystem. -/
def c9_collabAlt : Collaborators :=
  { sampleCollab with
      clock := fun n => (n : ℚ) + 7
      dirExists := fun _ => true
      readText := fun _ => "other-content" }

/-- C9 witness: the two concrete runs agree on both aggregates. -/
theorem c9_deterministic_aggregates_witness :
    (sampleCollab.readMesh = c9_collabAlt.readMesh
      ∧ sampleCollab.gdf2localcrs = c9_collabAlt.gdf2localcrs) ∧
    ((generate_scene_from_model_gdf sampleState sampleCollab [c5_wall] (0, 0)
        "t").n_models_tile
      = (generate_scene_from_model_gdf sampleState c9_collabAlt [c5_wall]
          (0, 0) "t").n_models_tile
    ∧ (generate_scene_from_model_gdf sampleState sampleCollab [c5_wall] (0, 0)
        "t").tile_n_tri
      = (generate_scene_from_model_gdf sampleState c9_collabAlt [c5_wall]
          (0, 0) "t").tile_n_tri) :=
  ⟨⟨rfl, rfl⟩,
    c9_deterministic_aggregates sampleState sampleCollab c9_collabAlt
      [c5_wall] (0, 0) "t" rfl rfl⟩
